import Mathlib

/-!
Shallow embedding of the mailbox deliverability probe engine of the
`everifier` repository, centred on `app/services/validator.py`
(`EmailValidatorService`) and `app/services/catchall.py`
(`CatchAllDetector`).

Network effects are abstracted as oracles: an SMTP dialog attempt is an
`AttemptOutcome` (the value returned, or the exception raised, by one
`smtplib` session), a DNS query is a `DnsOutcome`, and the catch-all
detector's `smtp_verify` callback is a function from (host index, attempt
index) to the SMTP code it yields (`none` standing for a raised
exception).  All control flow, string building and thresholds are
translated directly from the Python source.
-/

namespace EVerifier

/-- The `EmailValidationStatus` enum from `app/schemas.py`. -/
inductive EmailValidationStatus where
  | VALID
  | INVALID
  | USER_NOT_FOUND
  | CATCH_ALL
  | DISPOSABLE
  | ROLE_BASED
  | BLOCKLISTED
  | UNKNOWN
  deriving DecidableEq, Repr

/-- Substring test on character lists: Python's `needle in hay`. -/
def charsContain (hay needle : List Char) : Bool :=
  needle.isPrefixOf hay ||
    match hay with
    | [] => false
    | _ :: t => charsContain t needle

/-- Python's `needle in hay` on strings. -/
def strContains (hay needle : String) : Bool :=
  charsContain hay.toList needle.toList

/-- Python's `s.lower()` (ASCII case folding, as in the source's data). -/
def toLowerStr (s : String) : String :=
  ⟨s.toList.map Char.toLower⟩

/-- Python's `s.strip()`: drop whitespace from both ends. -/
def trimStr (s : String) : String :=
  ⟨((s.toList.dropWhile Char.isWhitespace).reverse.dropWhile
      Char.isWhitespace).reverse⟩

/-- Python's `s.split(sep)` for a one-character separator. -/
def splitChar (sep : Char) : List Char → List (List Char)
  | [] => [[]]
  | c :: t =>
    let r := splitChar sep t
    if c = sep then [] :: r
    else
      match r with
      | [] => [[c]]
      | h :: t2 => (c :: h) :: t2

/-- Python's `email.split('@')`. -/
def splitAtSign (s : String) : List String :=
  (splitChar '@' s.toList).map (fun l => ⟨l⟩)

/-- The keyword list of `_parse_smtp_response` (validator.py lines 341-347). -/
def NOT_FOUND_KEYWORDS : List String :=
  ["user not found", "user unknown", "no such user",
   "mailbox not found", "mailbox unavailable",
   "recipient rejected", "address rejected",
   "does not exist", "invalid recipient",
   "unknown user", "no mailbox", "5.1.1"]

/-- The `(status, reason, smtp_response)` triple returned by
`_validate_via_smtp` and `_parse_smtp_response`. -/
structure SmtpResult where
  status : EmailValidationStatus
  reason : String
  response : Option String
  deriving DecidableEq, Repr

/-- Embedding of `EmailValidatorService._parse_smtp_response` (validator.py lines 335-385). -/
def parse_smtp_response (code : Int) (response : String) : SmtpResult :=
  let response_lower := toLowerStr response
  if code = 550 ∨ code = 551 ∨ code = 553 ∨ code = 554 then
    if NOT_FOUND_KEYWORDS.any (fun k => strContains response_lower k) then
      ⟨.USER_NOT_FOUND, "Mailbox does not exist", some response⟩
    else
      ⟨.INVALID, "Email rejected (code " ++ toString code ++ ")", some response⟩
  else if code = 552 then
    ⟨.INVALID, "Mailbox full or policy restriction", some response⟩
  else if code = 450 ∨ code = 451 ∨ code = 452 then
    ⟨.UNKNOWN, "Temporary failure - greylisting or rate limit", some response⟩
  else if code = 421 then
    ⟨.UNKNOWN, "Service temporarily unavailable", some response⟩
  else
    ⟨.UNKNOWN, "Unhandled SMTP code: " ++ toString code, some response⟩

/-- What one SMTP dialog attempt inside `_smtp_check` can do: return a
reply `(code, msg)` from `server.rcpt`, or raise one of the exceptions the
source catches (`SMTPServerDisconnected`, `socket.timeout`,
`SMTPConnectError`, or any other exception). -/
inductive AttemptOutcome where
  | ok (code : Int) (msg : String)
  | disconnected (e : String)
  | timeout (e : String)
  | connectError (e : String)
  | otherError (e : String)
  deriving DecidableEq, Repr

/-- The retry loop of `EmailValidatorService._smtp_check`
(validator.py lines 267-320), unrolled over an oracle `outs` giving the
outcome of each attempt.  `attempt` is the loop index, `fuel` the
remaining iterations (the Python loop runs `range(retry_count)`). -/
def smtp_check_aux (outs : Nat → AttemptOutcome) (retry_count : Nat) :
    Nat → Nat → Int × String
  | _, 0 => (0, "Max retries exceeded")
  | attempt, fuel + 1 =>
    if attempt < retry_count then
      match outs attempt with
      | .ok c m => (c, m)
      | .disconnected e =>
          if attempt < retry_count - 1 then
            smtp_check_aux outs retry_count (attempt + 1) fuel
          else
            (0, "Connection disconnected after " ++ toString retry_count
                  ++ " attempts: " ++ e)
      | .timeout e =>
          if attempt < retry_count - 1 then
            smtp_check_aux outs retry_count (attempt + 1) fuel
          else
            (0, "Connection timeout after " ++ toString retry_count
                  ++ " attempts: " ++ e)
      | .connectError e => (0, "Connection refused: " ++ e)
      | .otherError e =>
          if attempt < retry_count - 1 then
            smtp_check_aux outs retry_count (attempt + 1) fuel
          else
            (0, e)
    else (0, "Max retries exceeded")

/-- Embedding of `EmailValidatorService._smtp_check` with retry budget `retry_count`
(the source's default is 2): returns `(code, message)`, code 0 meaning
"no definitive response". -/
def smtp_check (outs : Nat → AttemptOutcome) (retry_count : Nat) : Int × String :=
  smtp_check_aux outs retry_count 0 retry_count

/-- The host loop of `_validate_via_smtp` (validator.py lines 222-235):
`code_real, msg_real` are reassigned at each host, and the loop breaks at
the first non-zero code; `acc` is the current `(code_real, msg_real)`. -/
def probe_loop : List (Int × String) → Int × String → Int × String
  | [], acc => acc
  | r :: rs, _ => if r.1 ≠ 0 then r else probe_loop rs r

/-- The per-host results `_validate_via_smtp` would obtain: `_smtp_check`
(budget 2) on each of the first 3 MX hosts, where `hosts` gives each MX
host's dialog-attempt oracle in MX-record order. -/
def host_results (hosts : List (Nat → AttemptOutcome)) : List (Int × String) :=
  (hosts.take 3).map (fun o => smtp_check o 2)

/-- The pair `(code_real, msg_real)` after the host loop of `_validate_via_smtp`:
initial value `(0, "No MX responded")`. -/
def smtp_probe (hosts : List (Nat → AttemptOutcome)) : Int × String :=
  probe_loop (host_results hosts) (0, "No MX responded")

/-- How many hosts a result list makes the loop try (a host is tried, then
the loop stops if its code was non-zero). -/
def probed_hosts : List (Int × String) → Nat
  | [] => 0
  | r :: rs => if r.1 ≠ 0 then 1 else 1 + probed_hosts rs

/-- Number of `_smtp_check` calls (hosts actually probed) that
`_validate_via_smtp` performs. -/
def smtp_probe_count (hosts : List (Nat → AttemptOutcome)) : Nat :=
  probed_hosts (host_results hosts)

/-- The classification tail of `_validate_via_smtp` (validator.py lines
237-265): code 0 means all MX unresponsive; code 250 triggers the
catch-all check (`is_catch_all` is `_detect_catch_all`'s answer); every
other code goes to `_parse_smtp_response`. -/
def classify_outcome (code : Int) (msg : String) (is_catch_all : Bool) : SmtpResult :=
  if code = 0 then
    ⟨.UNKNOWN, "All MX servers unresponsive: " ++ msg, none⟩
  else
    let smtp_response := toString code ++ " " ++ msg
    if code = 250 then
      if is_catch_all then
        ⟨.CATCH_ALL, "Domain accepts all emails (catch-all)", some smtp_response⟩
      else
        ⟨.VALID, "Mailbox verified via SMTP", some smtp_response⟩
    else parse_smtp_response code smtp_response

/-- Embedding of `EmailValidatorService._validate_via_smtp` (validator.py lines
210-265), with the network abstracted into per-host attempt oracles and
the catch-all probe's answer. -/
def validate_via_smtp (hosts : List (Nat → AttemptOutcome)) (is_catch_all : Bool) :
    SmtpResult :=
  let r := smtp_probe hosts
  classify_outcome r.1 r.2 is_catch_all

/-! ## DNS / MX resolution (`_validate_dns_mx`, validator.py lines 156-208) -/

/-- What `dns.resolver.resolve(domain, 'MX')` can do: answer with records
`(preference, exchange)`, or raise `NoAnswer`, `NXDOMAIN`, `Timeout`, or
any other exception (carrying its string form). -/
inductive DnsOutcome where
  | answers (records : List (Nat × String))
  | noAnswer
  | nxdomain
  | dnsTimeout
  | otherError (e : String)

/-- Python's `hostname.rstrip('.')`: drop every trailing dot. -/
def rstripDots (s : String) : String :=
  ⟨(s.toList.reverse.dropWhile (fun c => c = '.')).reverse⟩

/-- Python's `sorted(mx_records, key=lambda x: x.preference)`: a stable sort by the
preference field (Python's `sorted` is stable, and so is insertion sort,
so the two agree on every input). -/
def sortedByPreference (records : List (Nat × String)) : List (Nat × String) :=
  List.insertionSort (fun a b => a.1 ≤ b.1) records

/-- The dictionary `_validate_dns_mx` returns. -/
structure DnsResult where
  valid : Bool
  reason : Option String
  mx_records : Option (List String)
  deriving DecidableEq, Repr

/-- Embedding of `EmailValidatorService._validate_dns_mx` (validator.py lines 156-208)
over a DNS oracle. -/
def validate_dns_mx (dns : DnsOutcome) : DnsResult :=
  match dns with
  | .answers records =>
      let mx_list := (sortedByPreference records).map (fun r => rstripDots r.2)
      if mx_list.isEmpty then
        ⟨false, some "No MX records found for domain", none⟩
      else
        ⟨true, none, some mx_list⟩
  | .noAnswer => ⟨false, some "No MX records found for domain", none⟩
  | .nxdomain => ⟨false, some "Domain does not exist", none⟩
  | .dnsTimeout => ⟨false, some "DNS lookup timeout", none⟩
  | .otherError e => ⟨false, some ("DNS lookup failed: " ++ e), none⟩

/-! ## Catch-all detector (`app/services/catchall.py`) -/

/-- The configuration of `CatchAllDetector.__init__` (catchall.py lines
16-26); the source defaults are `attempts_per_mx = 3`,
`positive_threshold = 0.8`. -/
structure CatchAllDetector where
  attempts_per_mx : Nat
  positive_threshold : ℚ
  deriving DecidableEq, Repr

/-- Positive (code 250) responses gathered by the nested loops of
`check_catch_all` (catchall.py lines 45-55): one `smtp_verify` call per
(host, attempt) pair; `verify i j` is the code returned on host `i`,
attempt `j`, with `none` standing for a raised exception (caught, logged
and counted as non-positive). -/
def countPositives (d : CatchAllDetector) (verify : Nat → Nat → Option Int)
    (numHosts : Nat) : Nat :=
  ((List.range numHosts).map (fun i =>
    ((List.range d.attempts_per_mx).filter (fun j => verify i j = some 250)).length)).sum

/-- The line `ratio = positive_responses / total_attempts if total_attempts > 0 else 0.0`
(catchall.py line 57). -/
def catchAllRatio (d : CatchAllDetector) (verify : Nat → Nat → Option Int)
    (mx_hosts : List String) : ℚ :=
  let total := mx_hosts.length * d.attempts_per_mx
  if total > 0 then
    (countPositives d verify mx_hosts.length : ℚ) / (total : ℚ)
  else 0

/-- Embedding of `CatchAllDetector.check_catch_all` (catchall.py lines 34-60).  The
`domain` argument is used by the source only to build the random fake
recipients; the probe responses are the oracle `verify`. -/
def check_catch_all (d : CatchAllDetector) (verify : Nat → Nat → Option Int)
    (mx_hosts : List String) (domain : String) : Bool :=
  let _ := domain
  decide (d.positive_threshold ≤ catchAllRatio d verify mx_hosts)

/-- Number of `smtp_verify` probes `check_catch_all` issues: the nested
loops run over every host and every attempt unconditionally (exceptions
are caught inside the loop body). -/
def catch_all_probe_count (d : CatchAllDetector) (mx_hosts : List String) : Nat :=
  mx_hosts.length * d.attempts_per_mx

/-! ## Orchestrator (`validate_email`, validator.py lines 67-139) -/

/-- The set `BLOCKLISTED_DOMAINS` (validator.py lines 46-48). -/
def BLOCKLISTED_DOMAINS : List String :=
  ["spam.com", "blocked.com", "malicious.com"]

/-- The set `DISPOSABLE_DOMAINS` (validator.py lines 38-43). -/
def DISPOSABLE_DOMAINS : List String :=
  ["tempmail.com", "throwaway.email", "guerrillamail.com",
   "10minutemail.com", "mailinator.com", "temp-mail.org",
   "fakeinbox.com", "getnada.com", "trashmail.com",
   "maildrop.cc", "yopmail.com", "mohmal.com"]

/-- The set `ROLE_BASED_PREFIXES` (validator.py lines 51-55). -/
def ROLE_BASED_PREFIXES : List String :=
  ["admin", "support", "help", "info", "noreply", "no-reply",
   "sales", "marketing", "contact", "service", "team",
   "hello", "mail", "postmaster", "webmaster", "abuse"]

/-- The set `SKIP_SMTP_DOMAINS` (validator.py lines 30-35): every entry is
commented out in the source, so the set is empty. -/
def SKIP_SMTP_DOMAINS : List String := []

/-- Python's `email.split('@')[0]`. -/
def extract_local (email : String) : String :=
  (splitAtSign email).headI

/-- Embedding of `EmailValidatorService._extract_domain`: `email.split('@')[1]`
(total here; only reached after the format check guarantees an `@`). -/
def extract_domain (email : String) : String :=
  (splitAtSign email).getD 1 ""

/-- The oracles one `validate_email` call consumes: the verdict of
`_is_valid_format` (regex plus `email_validator`), the DNS answer, the
per-MX-host SMTP dialog oracles (the `n`-th entry models the dialog
attempts against the `n`-th resolved MX host), and `_detect_catch_all`'s
answer when it is consulted. -/
structure ValidationEnv where
  format_ok : Bool
  dns : DnsOutcome
  smtp_hosts : List (Nat → AttemptOutcome)
  is_catch_all : Bool

/-- The result dictionary of `_create_result` (validator.py lines
387-403), minus the wall-clock `validated_at` field. -/
structure Verdict where
  email : String
  status : EmailValidationStatus
  reason : String
  mx_records : Option (List String)
  smtp_response : Option String
  deriving DecidableEq, Repr

/-- Embedding of `EmailValidatorService.validate_email` (validator.py lines 67-139):
normalize, then format check, blocklist, disposable, role-based, DNS/MX,
skip-list, SMTP probe, in that order, short-circuiting at the first
decisive stage. -/
def validate_email (env : ValidationEnv) (email0 : String) : Verdict :=
  let email := trimStr (toLowerStr email0)
  if !env.format_ok then
    ⟨email, .INVALID, "Invalid email format", none, none⟩
  else
    let domain := extract_domain email
    let local_part := extract_local email
    if domain ∈ BLOCKLISTED_DOMAINS then
      ⟨email, .BLOCKLISTED, "Domain is blocklisted", none, none⟩
    else if domain ∈ DISPOSABLE_DOMAINS then
      ⟨email, .DISPOSABLE, "Disposable email address", none, none⟩
    else if local_part ∈ ROLE_BASED_PREFIXES then
      ⟨email, .ROLE_BASED, "Role-based email address", none, none⟩
    else
      let dns_result := validate_dns_mx env.dns
      if !dns_result.valid then
        ⟨email, .INVALID, dns_result.reason.getD "", none, none⟩
      else
        let mx := dns_result.mx_records.getD []
        if mx.isEmpty then
          ⟨email, .INVALID, "No valid MX records found", none, none⟩
        else if domain ∈ SKIP_SMTP_DOMAINS then
          ⟨email, .UNKNOWN,
            "SMTP validation skipped for " ++ domain ++ " (port 25 blocked by provider)",
            some mx, none⟩
        else
          let r := validate_via_smtp env.smtp_hosts env.is_catch_all
          ⟨email, r.status, r.reason, some mx, r.response⟩

/-! ## Helper lemmas -/

/-- A string with a non-empty left part of an append is non-empty. -/
theorem append_ne_empty_left (s t : String) (hs : s ≠ "") : s ++ t ≠ "" := by
  intro h
  apply hs
  have hd : s.data ++ t.data = [] := by
    have := congrArg String.data h
    simpa using this
  have : s.data = [] := (List.append_eq_nil.mp hd).1
  cases s
  simp_all

/-- Lemma: `_parse_smtp_response` always returns a non-empty reason. -/
theorem parse_reason_ne (code : Int) (response : String) :
    (parse_smtp_response code response).reason ≠ "" := by
  dsimp only [parse_smtp_response]
  split_ifs <;> (try dsimp only) <;>
    first
      | (simp; done)
      | exact append_ne_empty_left _ _ (by decide)
      | exact append_ne_empty_left _ _ (append_ne_empty_left _ _ (by decide))

/-- Lemma: `_parse_smtp_response` never classifies as role-based. -/
theorem parse_status_ne_role (code : Int) (response : String) :
    (parse_smtp_response code response).status ≠ .ROLE_BASED := by
  dsimp only [parse_smtp_response]
  split_ifs <;> (try dsimp only) <;> simp

/-- The classification tail of `_validate_via_smtp` always returns a
non-empty reason. -/
theorem classify_reason_ne (code : Int) (msg : String) (ca : Bool) :
    (classify_outcome code msg ca).reason ≠ "" := by
  dsimp only [classify_outcome]
  split_ifs <;> (try dsimp only) <;>
    first
      | (simp; done)
      | exact append_ne_empty_left _ _ (by decide)
      | exact parse_reason_ne _ _

/-- The classification tail of `_validate_via_smtp` never classifies as
role-based. -/
theorem classify_status_ne_role (code : Int) (msg : String) (ca : Bool) :
    (classify_outcome code msg ca).status ≠ .ROLE_BASED := by
  dsimp only [classify_outcome]
  split_ifs <;> (try dsimp only) <;>
    first
      | (simp; done)
      | exact parse_status_ne_role _ _

/-! ## Claims -/

/-- C1 counterexample: a probe outcome with status code 251 is NOT
classified `valid` by the response classifier of
`_validate_via_smtp` / `_parse_smtp_response`: it falls through to the
"unhandled code" arm and yields `unknown`. -/
theorem c1_counterexample :
    (classify_outcome 251 "User not local; will forward" false).status
        = EmailValidationStatus.UNKNOWN ∧
    (classify_outcome 251 "User not local; will forward" false).status
        ≠ EmailValidationStatus.VALID := by
  constructor
  · decide
  · decide

/-- C1 (amended): code 250 is classified `valid` exactly when the
subsequent catch-all probe is negative (`catch_all` otherwise), while
code 251 is not treated as acceptance: for every message it falls through
to the generic arm and yields `unknown` with reason
"Unhandled SMTP code: 251". -/
theorem c1_classifier_250_251 (msg : String) (b : Bool) :
    (classify_outcome 250 msg false).status = EmailValidationStatus.VALID ∧
    (classify_outcome 250 msg true).status = EmailValidationStatus.CATCH_ALL ∧
    (classify_outcome 251 msg b).status = EmailValidationStatus.UNKNOWN ∧
    (classify_outcome 251 msg b).reason = "Unhandled SMTP code: 251" := by
  exact ⟨rfl, rfl, rfl, rfl⟩

/-- C6 counterexample: with a retry budget of 2, a first-attempt
`SMTPConnectError` ("Connection refused") makes `_smtp_check` surface
code 0 at once — the second attempt, which would have answered 250, is
never made — whereas a first-attempt disconnect or timeout IS retried and
the second attempt's 250 is returned. -/
theorem c6_counterexample :
    smtp_check (fun n => if n = 0 then AttemptOutcome.connectError "refused"
      else AttemptOutcome.ok 250 "OK") 2 = (0, "Connection refused: refused") ∧
    smtp_check (fun n => if n = 0 then AttemptOutcome.disconnected "gone"
      else AttemptOutcome.ok 250 "OK") 2 = (250, "OK") ∧
    smtp_check (fun n => if n = 0 then AttemptOutcome.timeout "slow"
      else AttemptOutcome.ok 250 "OK") 2 = (250, "OK") := by
  refine ⟨by decide, by decide, by decide⟩

/-- C6 (amended): disconnects, timeouts and generic errors are transient
for `_smtp_check` — retried up to the budget, then surfaced as code 0 —
but an `SMTPConnectError` (reported "Connection refused") aborts the
host immediately with code 0 on its first occurrence, regardless of what
later attempts would have returned. -/
theorem c6_retry_taxonomy (e m : String) (c : Int) (rest : Nat → AttemptOutcome) :
    smtp_check (fun n => if n = 0 then AttemptOutcome.connectError e else rest n) 2
        = (0, "Connection refused: " ++ e) ∧
    smtp_check (fun n => if n = 0 then AttemptOutcome.disconnected e
        else AttemptOutcome.ok c m) 2 = (c, m) ∧
    smtp_check (fun n => if n = 0 then AttemptOutcome.timeout e
        else AttemptOutcome.ok c m) 2 = (c, m) ∧
    smtp_check (fun n => if n = 0 then AttemptOutcome.otherError e
        else AttemptOutcome.ok c m) 2 = (c, m) ∧
    smtp_check (fun n => if n = 0 then AttemptOutcome.disconnected e
        else AttemptOutcome.disconnected m) 2
        = (0, "Connection disconnected after " ++ toString 2 ++ " attempts: " ++ m) ∧
    smtp_check (fun n => if n = 0 then AttemptOutcome.timeout e
        else AttemptOutcome.timeout m) 2
        = (0, "Connection timeout after " ++ toString 2 ++ " attempts: " ++ m) := by
  refine ⟨?_, ?_, ?_, ?_, ?_, ?_⟩ <;>
    simp [smtp_check, smtp_check_aux]

/-- C8: the MX resolver reports a domain with no mail-exchanger records
(`NoAnswer`, or an empty answer set) and a non-existent domain
(`NXDOMAIN`) as distinct outcomes with distinct reason strings, and
`validate_email` propagates each reason verbatim to its caller. -/
theorem c8_distinct_failures :
    (validate_dns_mx DnsOutcome.noAnswer).reason
        = some "No MX records found for domain" ∧
    (validate_dns_mx DnsOutcome.nxdomain).reason
        = some "Domain does not exist" ∧
    (validate_dns_mx DnsOutcome.noAnswer).reason
        ≠ (validate_dns_mx DnsOutcome.nxdomain).reason ∧
    (validate_dns_mx (DnsOutcome.answers [])).reason
        = some "No MX records found for domain" ∧
    (validate_email ⟨true, DnsOutcome.noAnswer, [], false⟩ "user@example.com").reason
        = "No MX records found for domain" ∧
    (validate_email ⟨true, DnsOutcome.nxdomain, [], false⟩ "user@example.com").reason
        = "Domain does not exist" ∧
    (validate_email ⟨true, DnsOutcome.noAnswer, [], false⟩ "user@example.com").reason
        ≠ (validate_email ⟨true, DnsOutcome.nxdomain, [], false⟩ "user@example.com").reason := by
  refine ⟨rfl, rfl, by decide, by decide, by decide, by decide, by decide⟩

/-- If no attempt of a host ever returns a non-zero `rcpt` code, its
`_smtp_check` surfaces code 0. -/
theorem smtp_check_aux_code_zero (outs : Nat → AttemptOutcome) (rc : Nat)
    (h : ∀ n c m, outs n = AttemptOutcome.ok c m → c = 0) :
    ∀ attempt fuel, (smtp_check_aux outs rc attempt fuel).1 = 0 := by
  intro attempt fuel
  induction fuel generalizing attempt with
  | zero => simp [smtp_check_aux]
  | succ k ih =>
    dsimp only [smtp_check_aux]
    split
    · rcases ho : outs attempt with ⟨c, m⟩ | e | e | e | e <;> simp only [ho]
      · exact h attempt _ _ ho
      · split
        · exact ih (attempt + 1)
        · rfl
      · split
        · exact ih (attempt + 1)
        · rfl
      · split
        · exact ih (attempt + 1)
        · rfl
    · rfl

/-- If every result in the list carries code 0 and so does the
accumulator, the host loop ends with code 0. -/
theorem probe_loop_code_zero (l : List (Int × String)) (acc : Int × String)
    (h : ∀ r ∈ l, r.1 = 0) (hacc : acc.1 = 0) :
    (probe_loop l acc).1 = 0 := by
  induction l generalizing acc with
  | nil => exact hacc
  | cons x xs ih =>
    have hx : x.1 = 0 := h x (by simp)
    dsimp only [probe_loop]
    rw [if_neg (by simp [hx])]
    exact ih x (fun r hr => h r (List.mem_cons_of_mem _ hr)) hx

/-- C2: if every host and every retry attempt completes without a
definitive (non-zero) `rcpt` code, the probe driver `_validate_via_smtp`
ends its host loop with code 0 and returns verdict `unknown` — never
`invalid` — with the aggregated "All MX servers unresponsive" reason. -/
theorem c2_exhausted_probe_unknown (hosts : List (Nat → AttemptOutcome)) (ca : Bool)
    (h : ∀ o ∈ hosts, ∀ n c m, o n = AttemptOutcome.ok c m → c = 0) :
    (smtp_probe hosts).1 = 0 ∧
    (validate_via_smtp hosts ca).status = EmailValidationStatus.UNKNOWN ∧
    (validate_via_smtp hosts ca).status ≠ EmailValidationStatus.INVALID ∧
    (validate_via_smtp hosts ca).reason
      = "All MX servers unresponsive: " ++ (smtp_probe hosts).2 := by
  have hz : (smtp_probe hosts).1 = 0 := by
    apply probe_loop_code_zero
    · intro r hr
      simp only [host_results, List.mem_map] at hr
      obtain ⟨o, ho, rfl⟩ := hr
      exact smtp_check_aux_code_zero o 2 (h o (List.take_subset 3 hosts ho)) 0 2
    · rfl
  refine ⟨hz, ?_, ?_, ?_⟩ <;>
    simp [validate_via_smtp, classify_outcome, hz]

/-- Witness for C2 at a single host whose both attempts disconnect. -/
theorem c2_witness :
    (validate_via_smtp [fun _ => AttemptOutcome.disconnected "net down"] false).status
      = EmailValidationStatus.UNKNOWN :=
  (c2_exhausted_probe_unknown [fun _ => AttemptOutcome.disconnected "net down"] false
    (by
      intro o ho n c m hv
      simp only [List.mem_singleton] at ho
      subst ho
      simp at hv)).2.1

/-- The host loop returns the first result with a non-zero code, having
tried exactly the hosts up to and including it. -/
theorem probe_loop_first (l : List (Int × String)) (acc : Int × String) (i : Nat)
    (r : Int × String) (hi : l[i]? = some r) (hr : r.1 ≠ 0)
    (hz : ∀ s ∈ l.take i, s.1 = 0) :
    probe_loop l acc = r ∧ probed_hosts l = i + 1 := by
  induction l generalizing acc i with
  | nil => simp at hi
  | cons x xs ih =>
    cases i with
    | zero =>
      simp only [List.getElem?_cons_zero, Option.some.injEq] at hi
      subst hi
      simp [probe_loop, probed_hosts, hr]
    | succ k =>
      have hx : x.1 = 0 := hz x (by simp [List.take_succ_cons])
      simp only [List.getElem?_cons_succ] at hi
      have hz2 : ∀ s ∈ xs.take k, s.1 = 0 := by
        intro s hs
        exact hz s (by simp [List.take_succ_cons, hs])
      obtain ⟨h1, h2⟩ := ih x k hi hz2
      constructor
      · simpa [probe_loop, hx] using h1
      · simp [probed_hosts, hx, h2]
        omega

/-- The loop never tries more hosts than the result list has. -/
theorem probed_hosts_le_length (l : List (Int × String)) :
    probed_hosts l ≤ l.length := by
  induction l with
  | nil => simp [probed_hosts]
  | cons x xs ih =>
    simp only [probed_hosts, List.length_cons]
    split
    · omega
    · omega

/-- C5: the SMTP probe driver walks the MX hosts in list order, probes at
most the first 3, and returns the result of the first host whose
`_smtp_check` yields a non-zero (definitive) code, having probed exactly
the hosts up to and including that one. -/
theorem c5_first_definitive_host (hosts : List (Nat → AttemptOutcome)) (i : Nat)
    (r : Int × String) (hi : (host_results hosts)[i]? = some r) (hr : r.1 ≠ 0)
    (hz : ∀ s ∈ (host_results hosts).take i, s.1 = 0) :
    smtp_probe hosts = r ∧
    smtp_probe_count hosts = i + 1 ∧
    smtp_probe_count hosts ≤ 3 ∧
    i < 3 := by
  obtain ⟨h1, h2⟩ := probe_loop_first (host_results hosts) (0, "No MX responded") i r hi hr hz
  have hlen : (host_results hosts).length ≤ 3 := by
    simp [host_results]
  have hi3 : i < (host_results hosts).length := by
    obtain ⟨hlt, _⟩ := List.getElem?_eq_some.mp hi
    exact hlt
  refine ⟨h1, h2, ?_, by omega⟩
  calc probed_hosts (host_results hosts) ≤ (host_results hosts).length :=
        probed_hosts_le_length _
    _ ≤ 3 := hlen

/-- Witness for C5: first two hosts unresponsive (timeout twice, then a
generic error twice), third answers 250; the driver returns the third
host's outcome after probing exactly 3 hosts. -/
theorem c5_witness :
    smtp_probe [fun _ => AttemptOutcome.timeout "t1",
      fun _ => AttemptOutcome.otherError "t2",
      fun _ => AttemptOutcome.ok 250 "Requested mail action okay"]
      = (250, "Requested mail action okay") ∧
    smtp_probe_count [fun _ => AttemptOutcome.timeout "t1",
      fun _ => AttemptOutcome.otherError "t2",
      fun _ => AttemptOutcome.ok 250 "Requested mail action okay"] = 3 := by
  obtain ⟨h1, h2, h3, h4⟩ := c5_first_definitive_host
    [fun _ => AttemptOutcome.timeout "t1",
     fun _ => AttemptOutcome.otherError "t2",
     fun _ => AttemptOutcome.ok 250 "Requested mail action okay"]
    2 (250, "Requested mail action okay") (by decide) (by decide) (by decide)
  exact ⟨h1, h2⟩

/-- C3: `check_catch_all` reports catch-all exactly when
`positive_responses / total_attempts ≥ positive_threshold` (strict
greater-or-equal): with threshold 0.8 and 10 total attempts, 8 positive
(code 250) responses yield `true` and 7 yield `false`; and with no hosts
(`total_attempts = 0`) the ratio is defined as 0 and the result is
`false`. -/
theorem c3_catchall_threshold :
    (∀ (d : CatchAllDetector) (verify : Nat → Nat → Option Int)
        (mx_hosts : List String) (domain : String),
      check_catch_all d verify mx_hosts domain = true ↔
        d.positive_threshold ≤ catchAllRatio d verify mx_hosts) ∧
    check_catch_all ⟨1, 0.8⟩ (fun i _ => if i < 8 then some 250 else none)
      (List.replicate 10 "mx") "example.com" = true ∧
    check_catch_all ⟨1, 0.8⟩ (fun i _ => if i < 7 then some 250 else none)
      (List.replicate 10 "mx") "example.com" = false ∧
    (∀ (verify : Nat → Nat → Option Int) (domain : String),
      catchAllRatio ⟨3, 0.8⟩ verify [] = 0 ∧
      check_catch_all ⟨3, 0.8⟩ verify [] domain = false) := by
  refine ⟨?_, ?_, ?_, ?_⟩
  · intro d verify mx_hosts domain
    simp [check_catch_all]
  · have h8 : countPositives ⟨1, 0.8⟩ (fun i _ => if i < 8 then some 250 else none) 10
        = 8 := by decide
    simp only [check_catch_all, catchAllRatio, List.length_replicate, h8]
    norm_num
  · have h7 : countPositives ⟨1, 0.8⟩ (fun i _ => if i < 7 then some 250 else none) 10
        = 7 := by decide
    simp only [check_catch_all, catchAllRatio, List.length_replicate, h7]
    norm_num
  · intro verify domain
    constructor
    · simp [catchAllRatio]
    · simp only [check_catch_all, catchAllRatio]
      norm_num

/-- C4 counterexample: the spec's excluded-domain short-circuit does not
exist in the code.  `check_catch_all` has no `excluded` parameter at all:
for the domain "excluded.example" (the spec's own test case) with one MX
host it still issues 3 probes (not zero), and when the fake recipients are
accepted it returns `true` (not `false`). -/
theorem c4_counterexample :
    catch_all_probe_count ⟨3, 0.8⟩ ["mx.excluded.example"] = 3 ∧
    (3 : Nat) ≠ 0 ∧
    check_catch_all ⟨3, 0.8⟩ (fun _ _ => some 250) ["mx.excluded.example"]
      "excluded.example" = true := by
  refine ⟨rfl, by decide, ?_⟩
  have h3 : countPositives ⟨3, 0.8⟩ (fun _ _ => some 250) 1 = 3 := by decide
  simp only [check_catch_all, catchAllRatio, List.length_singleton, h3]
  norm_num

/-- C4 (amended): `check_catch_all` consults no excluded-domain set — its
result is independent of the `domain` argument — and it probes every MX
host `attempts_per_mx` times regardless of the domain; it performs zero
probes and returns `false` (under the source's default threshold 0.8)
only when the MX-host list is empty. -/
theorem c4_no_excluded_set (d : CatchAllDetector) (verify : Nat → Nat → Option Int)
    (mx_hosts : List String) (domain1 domain2 : String) :
    check_catch_all d verify mx_hosts domain1
      = check_catch_all d verify mx_hosts domain2 ∧
    catch_all_probe_count d mx_hosts = mx_hosts.length * d.attempts_per_mx ∧
    catch_all_probe_count ⟨3, 0.8⟩ [] = 0 ∧
    check_catch_all ⟨3, 0.8⟩ verify [] domain1 = false := by
  refine ⟨rfl, rfl, rfl, ?_⟩
  simp only [check_catch_all, catchAllRatio]
  norm_num

instance : IsTotal (Nat × String) (fun a b => a.1 ≤ b.1) :=
  ⟨fun a b => Nat.le_total a.1 b.1⟩

instance : IsTrans (Nat × String) (fun a b => a.1 ≤ b.1) :=
  ⟨fun _ _ _ => Nat.le_trans⟩

/-- The head surviving a `dropWhile` never satisfies the dropped
predicate. -/
theorem head?_dropWhile_ne {α : Type} (p : α → Bool) (l : List α) (a : α)
    (h : (l.dropWhile p).head? = some a) : p a = false := by
  induction l with
  | nil => simp [List.dropWhile] at h
  | cons c t ih =>
    rw [List.dropWhile_cons] at h
    by_cases hc : p c = true
    · rw [if_pos hc] at h
      exact ih h
    · rw [if_neg hc] at h
      simp only [List.head?_cons, Option.some.injEq] at h
      subst h
      simpa using hc

/-- Python's `rstrip('.')` leaves no trailing dot. -/
theorem rstripDots_no_trailing_dot (s : String) :
    (rstripDots s).toList.getLast? ≠ some '.' := by
  intro h
  have h2 : (s.toList.reverse.dropWhile (fun c => c = '.')).head? = some '.' := by
    have : (rstripDots s).toList
        = (s.toList.reverse.dropWhile (fun c => c = '.')).reverse := rfl
    rw [this, List.getLast?_reverse] at h
    exact h
  have := head?_dropWhile_ne _ _ _ h2
  simp at this

/-- C7: for every DNS answer set, in any order, the MX list produced by
`_validate_dns_mx` is the preference-sorted answers with trailing root
dots stripped: the sorted record list is non-decreasing in preference,
and no output hostname ends in a dot. -/
theorem c7_mx_sorted_stripped (records : List (Nat × String)) :
    (validate_dns_mx (DnsOutcome.answers records)).mx_records.getD []
      = (sortedByPreference records).map (fun r => rstripDots r.2) ∧
    (sortedByPreference records).Pairwise (fun a b => a.1 ≤ b.1) ∧
    ∀ h ∈ (validate_dns_mx (DnsOutcome.answers records)).mx_records.getD [],
      h.toList.getLast? ≠ some '.' := by
  have heq : (validate_dns_mx (DnsOutcome.answers records)).mx_records.getD []
      = (sortedByPreference records).map (fun r => rstripDots r.2) := by
    dsimp only [validate_dns_mx]
    split
    · rename_i hemp
      rw [List.isEmpty_iff] at hemp
      simp [hemp]
    · rfl
  refine ⟨heq, ?_, ?_⟩
  · exact List.sorted_insertionSort (fun a b => a.1 ≤ b.1) records
  · intro hname hmem
    rw [heq] at hmem
    obtain ⟨r, _, rfl⟩ := List.mem_map.mp hmem
    exact rstripDots_no_trailing_dot r.2

/-- Witness for C7: a two-record answer set given in descending
preference order; the resolver output starts with the lower-preference
exchange and its trailing dot is stripped. -/
theorem c7_witness :
    ("mx1.example.com" : String).toList.getLast? ≠ some '.' ∧
    (validate_dns_mx (DnsOutcome.answers
        [(20, "mx2.example.com."), (10, "mx1.example.com.")])).mx_records.getD []
      = ["mx1.example.com", "mx2.example.com"] := by
  constructor
  · exact (c7_mx_sorted_stripped
      [(20, "mx2.example.com."), (10, "mx1.example.com.")]).2.2
      "mx1.example.com" (by decide)
  · decide

/-- Whenever `_validate_dns_mx` reports invalid, it carries a non-empty
reason string. -/
theorem dns_reason_or (dns : DnsOutcome) :
    (validate_dns_mx dns).valid = true ∨
    (validate_dns_mx dns).reason.getD "" ≠ "" := by
  cases dns with
  | answers records =>
    dsimp only [validate_dns_mx]
    split
    · right; simp
    · left; rfl
  | noAnswer => right; simp [validate_dns_mx]
  | nxdomain => right; simp [validate_dns_mx]
  | dnsTimeout => right; simp [validate_dns_mx]
  | otherError e =>
    right
    exact append_ne_empty_left _ _ (by decide)

/-- C9: every code path of `validate_email` — format failure, blocklist,
disposable, role-based, DNS/MX failure, empty MX list, skip-list, and
every SMTP probe outcome — returns a verdict with a populated (non-empty)
reason string. -/
theorem c9_reason_populated (env : ValidationEnv) (email : String) :
    (validate_email env email).reason ≠ "" := by
  dsimp only [validate_email]
  split
  · simp
  · split
    · simp
    · split
      · simp
      · split
        · simp
        · split
          · rename_i hval
            rcases dns_reason_or env.dns with hv | hne
            · simp [hv] at hval
            · exact hne
          · split
            · simp
            · split
              · exact append_ne_empty_left _ _
                  (append_ne_empty_left _ _ (by decide))
              · exact classify_reason_ne _ _ _

/-- Witness for C9 on a concrete failing input. -/
theorem c9_witness :
    (validate_email ⟨false, DnsOutcome.nxdomain, [], false⟩ "not-an-email").reason
      ≠ "" :=
  c9_reason_populated ⟨false, DnsOutcome.nxdomain, [], false⟩ "not-an-email"

/-- C10: `validate_email` classifies an address `role_based` exactly when
the format check passes, neither blocklist nor disposable fires first, and
the entire lowercased local-part is a member of `ROLE_BASED_PREFIXES`;
"admin123@example.com" (which merely begins with a role word) is not
role-based and proceeds to the DNS stage, while "admin@example.com" is. -/
theorem c10_role_exact_match (env : ValidationEnv) (email0 : String) :
    ((validate_email env email0).status = EmailValidationStatus.ROLE_BASED ↔
      (env.format_ok = true ∧
       extract_domain (trimStr (toLowerStr email0)) ∉ BLOCKLISTED_DOMAINS ∧
       extract_domain (trimStr (toLowerStr email0)) ∉ DISPOSABLE_DOMAINS ∧
       extract_local (trimStr (toLowerStr email0)) ∈ ROLE_BASED_PREFIXES)) ∧
    (validate_email ⟨true, DnsOutcome.nxdomain, [], false⟩
      "admin123@example.com").status = EmailValidationStatus.INVALID ∧
    (validate_email ⟨true, DnsOutcome.nxdomain, [], false⟩
      "admin@example.com").status = EmailValidationStatus.ROLE_BASED := by
  refine ⟨?_, by decide, by decide⟩
  dsimp only [validate_email, validate_via_smtp]
  split_ifs with h1 h2 h3 h4 h5 h6 h7 <;>
    simp_all [classify_status_ne_role]

end EVerifier
